import Mathlib

/-!
Shallow embedding of the obsidian sensor-model input/serialisation core:
`src/input/magnetism.cpp` and `src/serial/gravity.cpp`.

Modelling conventions:
- C++ `double` values are modelled as `ℚ`.  The embedded code never performs
  floating-point arithmetic on them: it only copies them and compares them
  against 0 or against bound values, so the ordered-field structure of `ℚ`
  is a faithful model of those operations.
- C++ `uint` values are modelled as `Nat`.
- Eigen dynamic matrices are modelled as a stored column count together with
  a list of rows; an Eigen vector is a plain list.
- Fallible operations return `Option`.
-/

namespace Obsidian

/-- An Eigen dynamic matrix of doubles: a column count plus a list of rows.
A default-constructed Eigen matrix is 0 x 0, i.e. `⟨0, []⟩`. -/
structure MatrixQ where
  cols : Nat
  data : List (List ℚ)
deriving DecidableEq, Repr

/-- Eigen's `m.rows()`. -/
def MatrixQ.rows (m : MatrixQ) : Nat := m.data.length

/-- Eigen's `m(r, c)`.  In the source this access is made only with indices
inside the matrix; out-of-range indices default to 0 here. -/
def MatrixQ.entry (m : MatrixQ) (r c : Nat) : ℚ := (m.data.getD r []).getD c 0

/-- Well-formedness: each stored row has exactly `cols` entries, as every
genuine Eigen matrix does. -/
def MatrixQ.WF (m : MatrixQ) : Prop := ∀ row ∈ m.data, row.length = m.cols

instance (m : MatrixQ) : Decidable m.WF := by
  unfold MatrixQ.WF; infer_instance

/-- Structure `VoxelSpec`: grid resolutions and supersample factor (C++ `uint` fields). -/
structure VoxelSpec where
  xResolution : Nat
  yResolution : Nat
  zResolution : Nat
  supersample : Nat
deriving DecidableEq, Repr

/-- Structure `NoiseSpec`: the inverse-gamma noise hyperparameters (C++ `double`). -/
structure NoiseSpec where
  inverseGammaAlpha : ℚ
  inverseGammaBeta : ℚ
deriving DecidableEq, Repr

/-- Structure `MagSpec`: magnetics sensor specification. -/
structure MagSpec where
  locations : MatrixQ
  voxelisation : VoxelSpec
  noise : NoiseSpec
  backgroundField : ℚ × ℚ × ℚ
deriving DecidableEq, Repr

/-- Structure `MagResults`: magnetics results (likelihood and per-location readings). -/
structure MagResults where
  likelihood : ℚ
  readings : List ℚ
deriving DecidableEq, Repr

/-- The world bounding box, as consumed by `validateSensor`:
`xBounds`/`yBounds` are (min, max) pairs. -/
structure WorldSpec where
  xBounds : ℚ × ℚ
  yBounds : ℚ × ℚ
deriving DecidableEq, Repr

/-- One diagnostic per `LOG(ERROR)` line of `validateSensor`
(src/input/magnetism.cpp lines 113-151), with the values interpolated into
the log message carried as payload.  The out-of-bounds message prints
`l + 1` for row index `l`; the payload here is the row index `l` itself. -/
inductive Diagnostic where
  | noLocations
  | wrongCols
  | locationOutOfBounds (l : Nat)
  | badVoxelisation
  | badNoise
  | readingsMismatch (numReadings : Nat) (numLocations : Nat)
deriving DecidableEq, Repr

/-- The per-location bounds test of `validateSensor` (lines 128-129):
x against `world.xBounds`, y against `world.yBounds`; the z column
(column 2) is never read. -/
def locationOut (world : WorldSpec) (m : MatrixQ) (l : Nat) : Bool :=
  decide (m.entry l 0 < world.xBounds.1 ∨ m.entry l 0 > world.xBounds.2
    ∨ m.entry l 1 < world.yBounds.1 ∨ m.entry l 1 > world.yBounds.2)

/-- Diagnostics of `validateSensor` for `ForwardModel::MAGNETICS`
(src/input/magnetism.cpp lines 112-151), returning both the aggregate
boolean and the list of emitted diagnostics in source order.  Every check
runs unconditionally; `valid` is false exactly when some check emitted a
diagnostic.  Note that the noise check at line 140 tests
`inverseGammaAlpha <= 0 || inverseGammaAlpha <= 0`: the alpha parameter
twice, and never `inverseGammaBeta` — reproduced verbatim here. -/
def validateDiagList (world : WorldSpec) (spec : MagSpec) (result : MagResults) :
    List Diagnostic :=
  (if spec.locations.rows = 0 then [.noLocations] else [])
  ++ (if spec.locations.cols ≠ 3 then [.wrongCols] else [])
  ++ ((List.range spec.locations.rows).filterMap
      (fun l => if locationOut world spec.locations l
                then some (.locationOutOfBounds l) else none))
  ++ (if spec.voxelisation.xResolution ≤ 0 ∨ spec.voxelisation.yResolution ≤ 0
        ∨ spec.voxelisation.zResolution ≤ 0
      then [.badVoxelisation] else [])
  ++ (if spec.noise.inverseGammaAlpha ≤ 0 ∨ spec.noise.inverseGammaAlpha ≤ 0
      then [.badNoise] else [])
  ++ (if spec.locations.rows ≠ result.readings.length
      then [.readingsMismatch result.readings.length spec.locations.rows] else [])

/-- The diagnostics of `validateSensor` paired with its boolean result:
`valid` starts `true` and is set `false` by whichever checks fail, i.e. it
is `true` exactly when no diagnostic was emitted. -/
def validateSensorDiag (world : WorldSpec) (spec : MagSpec) (result : MagResults) :
    Bool × List Diagnostic :=
  ((validateDiagList world spec result).isEmpty, validateDiagList world spec result)

/-- The boolean result of `validateSensor`. -/
def validateSensor (world : WorldSpec) (spec : MagSpec) (result : MagResults) : Bool :=
  (validateSensorDiag world spec result).1

/-! Gravity wire codec (src/serial/gravity.cpp).

The gravity Spec/Params/Results types mirror the magnetics ones without the
background field.  The protobuf messages and the matrix codec
(`matrixString`/`stringMatrix`, declared in serial/utility.hpp which is not
among the sources) are modelled from the spec, see the doc comments below. -/

/-- Structure `GravSpec`: gravity sensor specification. -/
structure GravSpec where
  locations : MatrixQ
  voxelisation : VoxelSpec
  noise : NoiseSpec
deriving DecidableEq, Repr

/-- Structure `GravParams`: the flag for returning raw sensor data. -/
structure GravParams where
  returnSensorData : Bool
deriving DecidableEq, Repr

/-- Structure `GravResults`: gravity results (likelihood and per-location readings,
the readings being an Eigen dynamic column vector). -/
structure GravResults where
  likelihood : ℚ
  readings : List ℚ
deriving DecidableEq, Repr

/-- Modelled from the spec: the matrix codec (§4.1) encodes a matrix as its
elements in row-major order at full precision; the byte string itself is
modelled as the flat element list.  Source counterpart: `matrixString` of
serial/utility.hpp, which is not among the source files. -/
def matrixString (m : MatrixQ) : List ℚ := m.data.flatten

/-- Splits a flat row-major element list back into `nrows` rows of `c`
elements each. -/
def splitRows (c : Nat) : Nat → List ℚ → List (List ℚ)
  | 0, _ => []
  | n + 1, l => l.take c :: splitRows c n (l.drop c)

/-- Modelled from the spec: the matrix codec decode (§4.1) takes the encoded
bytes and a row count, with the column count fixed per call site (not carried
in the encoding); a row count that does not match the implied element count
fails (`MalformedPayload`, here `none`), and an empty encoding decodes to a
zero-row matrix with the call site's column count.  Source counterpart:
`stringMatrix` of serial/utility.hpp, which is not among the source files. -/
def stringMatrix (s : List ℚ) (nrows cols : Nat) : Option MatrixQ :=
  if s.length = nrows * cols then some ⟨cols, splitRows cols nrows s⟩ else none

/-- Modelled from the spec: the vector instance of the matrix codec
(column count 1), used for `GravResults.readings`. -/
def vectorString (v : List ℚ) : List ℚ := v

/-- Modelled from the spec: decode of the vector instance of the matrix
codec; fails when the length does not match the declared count. -/
def stringVector (s : List ℚ) (n : Nat) : Option (List ℚ) :=
  if s.length = n then some s else none

/-- Modelled from the spec: the `VoxelisationProtobuf` message, one field
per voxelisation component (§4.2: each message declares its fields
explicitly). -/
structure VoxelisationProtobuf where
  xresolution : Nat
  yresolution : Nat
  zresolution : Nat
  supersample : Nat
deriving DecidableEq, Repr

/-- Modelled from the spec: the `NoiseSpecProtobuf` message. -/
structure NoiseSpecProtobuf where
  inversegammaalpha : ℚ
  inversegammabeta : ℚ
deriving DecidableEq, Repr

/-- Modelled from the spec: the `GravSpecProtobuf` message; `numlocations`
row-count metadata is always encoded alongside the matrix field (§4.2). -/
structure GravSpecProtobuf where
  numlocations : Nat
  locations : List ℚ
  voxelisation : VoxelisationProtobuf
  noise : NoiseSpecProtobuf
deriving DecidableEq, Repr

/-- Modelled from the spec: the `GravParamsProtobuf` message. -/
structure GravParamsProtobuf where
  returnsensordata : Bool
deriving DecidableEq, Repr

/-- Modelled from the spec: the `GravResultsProtobuf` message.  `readings`
and `numreadings` are optional fields with presence (`has_readings()`);
an unset `numreadings` reads back as the protobuf default 0 (§4.2: optional
fields are omitted from the encoding entirely when empty).  The wire string
itself is modelled as the message value: `protobufToString` followed by
`ParseFromString` is the identity on messages, the encoding being an
implementation detail behind the schema contract (§6). -/
structure GravResultsProtobuf where
  likelihood : ℚ
  numreadings : Option Nat
  readings : Option (List ℚ)
deriving DecidableEq, Repr

/-- C++ `serialise(const GravSpec&)` (src/serial/gravity.cpp lines 17-31):
fills every field of the protobuf from the spec. -/
def serialiseGravSpec (g : GravSpec) : GravSpecProtobuf :=
  { numlocations := g.locations.rows
    locations := matrixString g.locations
    voxelisation :=
      { xresolution := g.voxelisation.xResolution
        yresolution := g.voxelisation.yResolution
        zresolution := g.voxelisation.zResolution
        supersample := g.voxelisation.supersample }
    noise :=
      { inversegammaalpha := g.noise.inverseGammaAlpha
        inversegammabeta := g.noise.inverseGammaBeta } }

/-- C++ `unserialise(const std::string&, GravSpec&)` (lines 33-44): overwrites
every field of the in-out `GravSpec` from the message; the locations matrix
is decoded with `numlocations` rows at the call site's column count 3
(locations are 3-D points).  Decode failure is `none`. -/
def unserialiseGravSpec (pb : GravSpecProtobuf) (gIn : GravSpec) : Option GravSpec :=
  match stringMatrix pb.locations pb.numlocations 3 with
  | none => none
  | some loc =>
    some { gIn with
      locations := loc
      voxelisation :=
        { xResolution := pb.voxelisation.xresolution
          yResolution := pb.voxelisation.yresolution
          zResolution := pb.voxelisation.zresolution
          supersample := pb.voxelisation.supersample }
      noise :=
        { inverseGammaAlpha := pb.noise.inversegammaalpha
          inverseGammaBeta := pb.noise.inversegammabeta } }

/-- C++ `serialise(const GravParams&)` (lines 46-51). -/
def serialiseGravParams (g : GravParams) : GravParamsProtobuf :=
  { returnsensordata := g.returnSensorData }

/-- C++ `unserialise(const std::string&, GravParams&)` (lines 53-58). -/
def unserialiseGravParams (pb : GravParamsProtobuf) (gIn : GravParams) : GravParams :=
  { gIn with returnSensorData := pb.returnsensordata }

/-- C++ `serialise(const GravResults&)` (lines 60-70): always sets `likelihood`;
sets `numreadings` and `readings` only when `readings.size() > 0`. -/
def serialiseGravResults (g : GravResults) : GravResultsProtobuf :=
  if g.readings.length > 0 then
    { likelihood := g.likelihood
      numreadings := some g.readings.length
      readings := some (vectorString g.readings) }
  else
    { likelihood := g.likelihood, numreadings := none, readings := none }

/-- C++ `unserialise(const std::string&, GravResults&)` (lines 72-81): always
overwrites `likelihood`; overwrites `readings` only when the message has a
`readings` field (`has_readings()`), otherwise the in-out object's previous
`readings` value is left untouched. -/
def unserialiseGravResults (pb : GravResultsProtobuf) (gIn : GravResults) :
    Option GravResults :=
  let g1 : GravResults := { gIn with likelihood := pb.likelihood }
  match pb.readings with
  | none => some g1
  | some r =>
    match stringVector r (pb.numreadings.getD 0) with
    | none => none
    | some v => some { g1 with readings := v }

/-! Configuration parsing (src/input/magnetism.cpp). -/

/-- The sensor-type enumeration (`ForwardModel`); only its identity is used
here, for membership tests against the enabled set. -/
inductive ForwardModel where
  | gravity
  | magnetics
  | thermal
deriving DecidableEq, Repr

/-- The magnetism options of the parsed variables map, one field per
`magnetism.*` option declared in `initSensorInputFileOptions` (lines 22-34):
`sensorLocations`/`sensorReadings` are file paths, `gridResolution` an
`Eigen::Vector3i`, `supersample` a `uint`, the noise options `double`s and
`magneticField` an `Eigen::Vector3d`. -/
structure MagVarMap where
  sensorLocations : String
  sensorReadings : String
  gridResolution : Int × Int × Int
  supersample : Nat
  noiseAlpha : ℚ
  noiseBeta : ℚ
  magneticField : ℚ × ℚ × ℚ
deriving DecidableEq, Repr

/-- The C++ `uint(i)` conversion from a signed int. -/
def uintOfInt (i : Int) : Nat := (i % (2 ^ 32)).toNat

/-- The default-constructed `MagSpec` returned by `parseSpec` for a disabled
sensor: an empty (0 x 0) locations matrix.  The C++ scalar members are left
indeterminate by the default constructor; they are taken as 0 here. -/
def defaultMagSpec : MagSpec :=
  { locations := ⟨0, []⟩
    voxelisation := ⟨0, 0, 0, 0⟩
    noise := ⟨0, 0⟩
    backgroundField := (0, 0, 0) }

/-- C++ `parseSpec<MagSpec>` (lines 36-54), with its reads made explicit: the
result is paired with the list of accesses performed, in source order — each
`vm["k"]` lookup is recorded as the key `k`, and the `io::csv::read` of the
locations file as `csv:<path>`.  When `ForwardModel::MAGNETICS` is not in
`sensorsEnabled`, the default spec is returned and nothing is accessed.
The external CSV reader is a function argument `csvRead`. -/
def parseSpecMag (csvRead : String → MatrixQ) (vm : MagVarMap)
    (sensorsEnabled : List ForwardModel) : MagSpec × List String :=
  if sensorsEnabled.contains ForwardModel.magnetics then
    let locations := csvRead vm.sensorLocations
    let magRes := vm.gridResolution
    ({ locations := locations
       voxelisation :=
         { xResolution := uintOfInt magRes.1
           yResolution := uintOfInt magRes.2.1
           zResolution := uintOfInt magRes.2.2
           supersample := vm.supersample }
       noise :=
         { inverseGammaAlpha := vm.noiseAlpha
           inverseGammaBeta := vm.noiseBeta }
       backgroundField := vm.magneticField },
     ["magnetism.sensorLocations", "csv:" ++ vm.sensorLocations,
      "magnetism.gridResolution", "magnetism.supersample",
      "magnetism.noiseAlpha", "magnetism.noiseBeta",
      "magnetism.magneticField"])
  else
    (defaultMagSpec, [])

/-- C++ `parseSensorReadings<MagResults>` (lines 80-91), with reads made explicit
as in `parseSpecMag`.  For an enabled sensor the readings vector is read from
the CSV file and the likelihood set to 0; for a disabled sensor the
default-constructed `MagResults` (empty readings; the indeterminate
likelihood taken as 0) is returned with no accesses. -/
def parseSensorReadingsMag (csvReadVec : String → List ℚ) (vm : MagVarMap)
    (sensorsEnabled : List ForwardModel) : MagResults × List String :=
  if sensorsEnabled.contains ForwardModel.magnetics then
    ({ likelihood := 0, readings := csvReadVec vm.sensorReadings },
     ["magnetism.sensorReadings", "csv:" ++ vm.sensorReadings])
  else
    ({ likelihood := 0, readings := [] }, [])

/-! Property activation (src/input/magnetism.cpp lines 100-104). -/

/-- Modelled from the spec: `RockProperty` is an external closed enumeration
of medium properties (§6); the only entry used here is `LogSusceptibility`,
the property magnetics activates.  Its numeric position is not fixed by the
source files; it is taken as 1. -/
def logSusceptibilityIndex : Nat := 1

/-- C++ `enableProperties<ForwardModel::MAGNETICS>` (lines 100-104): sets the
mask entry at index `RockProperty::LogSusceptibility` to 1.  The
`Eigen::VectorXi` mask is modelled as a list of `Int`. -/
def enableProperties (propMasksMask : List Int) : List Int :=
  propMasksMask.set logSusceptibilityIndex 1

/-! Helper lemmas shared by the claim theorems. -/

/-- Flattening rows of uniform length `c` yields `rows * c` elements. -/
lemma flatten_length_of_rows (c : Nat) (ls : List (List ℚ))
    (h : ∀ r ∈ ls, r.length = c) : ls.flatten.length = ls.length * c := by
  induction ls with
  | nil => simp
  | cons a t ih =>
    have ha : a.length = c := h a (by simp)
    simp only [List.flatten_cons, List.length_append, List.length_cons, ha,
      ih (fun r hr => h r (by simp [hr]))]
    ring

/-- Splitting a flattened row list recovers the rows. -/
lemma splitRows_flatten (c : Nat) (ls : List (List ℚ))
    (h : ∀ r ∈ ls, r.length = c) :
    splitRows c ls.length ls.flatten = ls := by
  induction ls with
  | nil => simp [splitRows]
  | cons a t ih =>
    have ha : a.length = c := h a (by simp)
    simp only [List.length_cons, List.flatten_cons, splitRows]
    rw [List.take_left' ha, List.drop_left' ha, ih (fun r hr => h r (by simp [hr]))]

/-- The matrix codec round trip on well-formed matrices. -/
lemma stringMatrix_matrixString (m : MatrixQ) (h : m.WF) :
    stringMatrix (matrixString m) m.rows m.cols = some m := by
  unfold stringMatrix matrixString MatrixQ.rows
  rw [if_pos (flatten_length_of_rows m.cols m.data h)]
  rw [splitRows_flatten m.cols m.data h]

/-- A list with a member is not empty. -/
lemma isEmpty_false_of_mem {α : Type} {a : α} {l : List α} (h : a ∈ l) :
    l.isEmpty = false := by
  cases l with
  | nil => cases h
  | cons b t => rfl

/-- Any emitted diagnostic makes `validateSensor` return `false`. -/
lemma validateSensor_false_of_mem {w : WorldSpec} {s : MagSpec} {r : MagResults}
    {d : Diagnostic} (h : d ∈ validateDiagList w s r) :
    validateSensor w s r = false := by
  unfold validateSensor validateSensorDiag
  exact isEmpty_false_of_mem h

/-- A location failing the bounds test emits its diagnostic. -/
lemma mem_diag_of_locationOut {w : WorldSpec} {s : MagSpec} {r : MagResults}
    {l : Nat} (hl : l < s.locations.rows) (hout : locationOut w s.locations l = true) :
    Diagnostic.locationOutOfBounds l ∈ validateDiagList w s r := by
  unfold validateDiagList
  refine List.mem_append_left _ (List.mem_append_left _ (List.mem_append_left _
    (List.mem_append_right _ ?_)))
  exact List.mem_filterMap.mpr ⟨l, List.mem_range.mpr hl, by rw [if_pos hout]⟩

/-- A reading-count mismatch emits its diagnostic, carrying both counts. -/
lemma mem_diag_of_mismatch {w : WorldSpec} {s : MagSpec} {r : MagResults}
    (h : s.locations.rows ≠ r.readings.length) :
    Diagnostic.readingsMismatch r.readings.length s.locations.rows
      ∈ validateDiagList w s r := by
  unfold validateDiagList
  refine List.mem_append_right _ ?_
  rw [if_pos h]
  exact List.mem_singleton.mpr rfl

/-- An empty locations matrix emits the no-locations diagnostic. -/
lemma mem_diag_of_no_locations {w : WorldSpec} {s : MagSpec} {r : MagResults}
    (h : s.locations.rows = 0) :
    Diagnostic.noLocations ∈ validateDiagList w s r := by
  unfold validateDiagList
  refine List.mem_append_left _ (List.mem_append_left _ (List.mem_append_left _
    (List.mem_append_left _ (List.mem_append_left _ ?_))))
  rw [if_pos h]
  exact List.mem_singleton.mpr rfl

/-! Concrete fixtures used by the scenario parts of the claims. -/

/-- A world with x and y bounds both [0, 100]. -/
def okWorld : WorldSpec := ⟨(0, 100), (0, 100)⟩

/-- A fully populated magnetism variables map. -/
def sampleVarMap : MagVarMap :=
  { sensorLocations := "locations.csv"
    sensorReadings := "readings.csv"
    gridResolution := (10, 10, 10)
    supersample := 1
    noiseAlpha := 1
    noiseBeta := 1
    magneticField := (0, 0, 800) }

/-! Claim theorems. -/

/-- C1: the claim says validation must fail whenever either noise
hyperparameter is not strictly positive — for noise (0.0, 1.0) and,
symmetrically, for noise (1.0, 0.0).  The code fails for alpha = 0 but
returns `true` for beta = 0 with every other field valid, because line 140
of src/input/magnetism.cpp tests `inverseGammaAlpha` twice and never
`inverseGammaBeta`, contradicting its own log message that the noise
parameters (plural) must be greater than 0. -/
theorem C1_noise_beta_unchecked :
    validateSensor okWorld
      ⟨⟨3, [[10, 10, 0]]⟩, ⟨10, 10, 10, 1⟩, ⟨0, 1⟩, (0, 0, 0)⟩ ⟨0, [1]⟩ = false
    ∧ validateSensor okWorld
      ⟨⟨3, [[10, 10, 0]]⟩, ⟨10, 10, 10, 1⟩, ⟨1, 0⟩, (0, 0, 0)⟩ ⟨0, [1]⟩ = true
    ∧ (⟨1, 0⟩ : NoiseSpec).inverseGammaBeta ≤ 0 := by decide

/-- C2: for every valid `GravSpec` (well-formed 3-column locations),
every `GravParams` and every `GravResults` decoded into a fresh (empty
readings) object, `unserialise` after `serialise` reproduces the value
field-by-field exactly, whatever object the in-out decode argument held. -/
theorem C2_wire_roundtrip :
    (∀ (g gIn : GravSpec), g.locations.WF → g.locations.cols = 3 →
      unserialiseGravSpec (serialiseGravSpec g) gIn = some g)
    ∧ (∀ (p pIn : GravParams),
      unserialiseGravParams (serialiseGravParams p) pIn = p)
    ∧ (∀ (r rIn : GravResults), rIn.readings = [] →
      unserialiseGravResults (serialiseGravResults r) rIn = some r) := by
  refine ⟨fun g gIn hwf hc => ?_, fun p pIn => ?_, fun r rIn h => ?_⟩
  · unfold unserialiseGravSpec serialiseGravSpec
    have h3 : stringMatrix (matrixString g.locations) g.locations.rows 3
        = some g.locations := by
      rw [← hc]; exact stringMatrix_matrixString g.locations hwf
    simp only [h3]
  · cases p with
    | mk b => rfl
  · unfold unserialiseGravResults serialiseGravResults
    by_cases hr : r.readings.length > 0
    · simp only [if_pos hr, vectorString, stringVector, Option.getD_some, if_pos rfl]
      cases r with
      | mk l v => rfl
    · have hre : r.readings = [] := by
        cases hempty : r.readings with
        | nil => rfl
        | cons a t => rw [hempty] at hr; simp at hr
      simp only [if_neg hr]
      cases r with
      | mk l v =>
        simp only at hre
        subst hre
        simp [h]

/-- Witness for C2 at concrete values of all three types. -/
theorem C2_wire_roundtrip_witness :
    unserialiseGravSpec
      (serialiseGravSpec ⟨⟨3, [[1, 2, 3], [4, 5, 6]]⟩, ⟨10, 10, 10, 1⟩, ⟨1, 2⟩⟩)
      ⟨⟨0, []⟩, ⟨0, 0, 0, 0⟩, ⟨0, 0⟩⟩
      = some ⟨⟨3, [[1, 2, 3], [4, 5, 6]]⟩, ⟨10, 10, 10, 1⟩, ⟨1, 2⟩⟩
    ∧ unserialiseGravParams (serialiseGravParams ⟨true⟩) ⟨false⟩ = ⟨true⟩
    ∧ unserialiseGravResults (serialiseGravResults ⟨7, [1, 2]⟩) ⟨0, []⟩
      = some ⟨7, [1, 2]⟩ :=
  ⟨C2_wire_roundtrip.1 _ _ (by decide) (by decide),
   C2_wire_roundtrip.2.1 _ _,
   C2_wire_roundtrip.2.2 _ _ rfl⟩

/-- C3: the claim says `validateSensor` returns false iff one of the six
generic checks fails, the fifth being that both noise hyperparameters are
strictly positive.  For noise (2, -1) — beta not positive, everything else
valid — the code returns `true` and emits no diagnostic at all, because
line 140 tests `inverseGammaAlpha` twice and never `inverseGammaBeta`. -/
theorem C3_noise_beta_no_diagnostic :
    validateSensorDiag okWorld
      ⟨⟨3, [[20, 20, 0]]⟩, ⟨10, 10, 10, 1⟩, ⟨2, -1⟩, (0, 0, 0)⟩ ⟨0, [3]⟩ = (true, [])
    ∧ (⟨2, -1⟩ : NoiseSpec).inverseGammaBeta ≤ 0 := by decide

/-- C4 counterexample: decoding a payload without a readings field into a
`GravResults` object that already held the non-empty readings [5] leaves
[5] in place — the output's readings field is not empty, contrary to the
claim that absence on decode leaves the field empty even for an object
that held non-empty readings before the call. -/
theorem C4_readings_retained_counterexample :
    unserialiseGravResults (serialiseGravResults ⟨1, []⟩) ⟨0, [5]⟩ = some ⟨1, [5]⟩
    ∧ ((5 : ℚ) :: []) ≠ [] := by decide

/-- C4 amended: when readings are empty, `serialise` omits both the
readings and numreadings fields; when the payload lacks a readings field,
`unserialise` leaves the readings field of the in-out object unchanged —
empty when that object was default-initialized, but retaining previously
held readings rather than clearing them. -/
theorem C4_optional_readings_amended :
    (∀ r : GravResults, r.readings = [] →
      (serialiseGravResults r).readings = none
      ∧ (serialiseGravResults r).numreadings = none)
    ∧ (∀ (pb : GravResultsProtobuf) (gIn : GravResults), pb.readings = none →
      unserialiseGravResults pb gIn
        = some { likelihood := pb.likelihood, readings := gIn.readings }) := by
  refine ⟨fun r h => ?_, fun pb gIn h => ?_⟩
  · have hr : ¬ r.readings.length > 0 := by simp [h]
    unfold serialiseGravResults
    rw [if_neg hr]
    exact ⟨rfl, rfl⟩
  · unfold unserialiseGravResults
    rw [h]

/-- Witness for C4's amended statement at concrete values. -/
theorem C4_optional_readings_witness :
    ((serialiseGravResults ⟨3, []⟩).readings = none
      ∧ (serialiseGravResults ⟨3, []⟩).numreadings = none)
    ∧ unserialiseGravResults ⟨9, none, none⟩ ⟨0, [4]⟩ = some ⟨9, [4]⟩ :=
  ⟨C4_optional_readings_amended.1 ⟨3, []⟩ rfl,
   C4_optional_readings_amended.2 ⟨9, none, none⟩ ⟨0, [4]⟩ rfl⟩

/-- C5: with `ForwardModel::MAGNETICS` absent from the enabled set,
`parseSpec<MagSpec>` returns the default `MagSpec` — empty locations —
and performs no option access and no CSV read at all (the access log of
the embedding is empty). -/
theorem C5_disabled_parse_no_reads (csvRead : String → MatrixQ) (vm : MagVarMap)
    (en : List ForwardModel) (h : ForwardModel.magnetics ∉ en) :
    parseSpecMag csvRead vm en = (defaultMagSpec, [])
    ∧ defaultMagSpec.locations.rows = 0 := by
  refine ⟨?_, rfl⟩
  unfold parseSpecMag
  rw [if_neg (by simpa using h)]

/-- Witness for C5 with only gravity enabled. -/
theorem C5_disabled_parse_witness :
    parseSpecMag (fun _ => ⟨3, [[1, 1, 1]]⟩) sampleVarMap [ForwardModel.gravity]
      = (defaultMagSpec, [])
    ∧ defaultMagSpec.locations.rows = 0 :=
  C5_disabled_parse_no_reads _ sampleVarMap _ (by decide)

/-- C6: any location row failing the x/y bounds test makes `validateSensor`
return false; and in the spec scenario — world bounds [0,100]x[0,100],
locations [[10,10,0],[200,10,5]], voxelisation (10,10,10), noise (1,1),
2 readings — validation fails with exactly the out-of-bounds diagnostic for
the second location (row index 1, logged as location 2). -/
theorem C6_bounds_check :
    (∀ (w : WorldSpec) (s : MagSpec) (r : MagResults) (l : Nat),
        l < s.locations.rows → locationOut w s.locations l = true →
        validateSensor w s r = false)
    ∧ validateSensorDiag okWorld
        ⟨⟨3, [[10, 10, 0], [200, 10, 5]]⟩, ⟨10, 10, 10, 1⟩, ⟨1, 1⟩, (0, 0, 0)⟩
        ⟨0, [1, 2]⟩
      = (false, [Diagnostic.locationOutOfBounds 1]) :=
  ⟨fun _ _ _ _ hl hout => validateSensor_false_of_mem (mem_diag_of_locationOut hl hout),
   by decide⟩

/-- Witness for C6's general part at the scenario input. -/
theorem C6_bounds_check_witness :
    validateSensor okWorld
      ⟨⟨3, [[10, 10, 0], [200, 10, 5]]⟩, ⟨10, 10, 10, 1⟩, ⟨1, 1⟩, (0, 0, 0)⟩
      ⟨0, [1, 2]⟩ = false :=
  C6_bounds_check.1 okWorld _ _ 1 (by decide) (by decide)

/-- C7: whenever the number of readings differs from the number of location
rows, `validateSensor` returns false and the mismatch diagnostic carrying
both counts is emitted; in the spec scenario — 3 in-bounds locations, all
other fields valid, 2 readings — validation fails with exactly the mismatch
diagnostic reporting 2 readings against 3 locations. -/
theorem C7_readings_mismatch :
    (∀ (w : WorldSpec) (s : MagSpec) (r : MagResults),
        r.readings.length ≠ s.locations.rows →
        validateSensor w s r = false
        ∧ Diagnostic.readingsMismatch r.readings.length s.locations.rows
            ∈ (validateSensorDiag w s r).2)
    ∧ validateSensorDiag okWorld
        ⟨⟨3, [[1, 1, 0], [2, 2, 0], [3, 3, 0]]⟩, ⟨10, 10, 10, 1⟩, ⟨1, 1⟩, (0, 0, 0)⟩
        ⟨0, [1, 2]⟩
      = (false, [Diagnostic.readingsMismatch 2 3]) :=
  ⟨fun w s r h =>
    have hm := mem_diag_of_mismatch (w := w) (s := s) (r := r) (Ne.symm h)
    ⟨validateSensor_false_of_mem hm, hm⟩,
   by decide⟩

/-- Witness for C7's general part at the scenario input. -/
theorem C7_readings_mismatch_witness :
    validateSensor okWorld
      ⟨⟨3, [[1, 1, 0], [2, 2, 0], [3, 3, 0]]⟩, ⟨10, 10, 10, 1⟩, ⟨1, 1⟩, (0, 0, 0)⟩
      ⟨0, [1, 2]⟩ = false
    ∧ Diagnostic.readingsMismatch 2 3
        ∈ (validateSensorDiag okWorld
            ⟨⟨3, [[1, 1, 0], [2, 2, 0], [3, 3, 0]]⟩, ⟨10, 10, 10, 1⟩, ⟨1, 1⟩, (0, 0, 0)⟩
            ⟨0, [1, 2]⟩).2 :=
  C7_readings_mismatch.1 okWorld _ _ (by decide)

/-- C8 counterexample: the claim says `validateSensor` applied to the
disabled-sensor parse outputs (empty spec, empty results) returns true; it
returns false — the empty locations matrix fails the non-empty-locations
check (and others). -/
theorem C8_empty_passes_counterexample :
    validateSensor okWorld
      (parseSpecMag (fun _ => ⟨3, [[1, 1, 1]]⟩) sampleVarMap [ForwardModel.gravity]).1
      (parseSensorReadingsMag (fun _ => [1]) sampleVarMap [ForwardModel.gravity]).1
      = false := by decide

/-- C8 amended: for a disabled sensor the parse outputs are the empty
`MagSpec` and empty `MagResults`, but `validateSensor` applied to them
returns false — any spec with zero location rows fails validation — so
validation does not trivially pass for disabled sensors; it must be
skipped instead. -/
theorem C8_empty_spec_invalid_amended :
    (∀ (w : WorldSpec) (s : MagSpec) (r : MagResults),
        s.locations.rows = 0 → validateSensor w s r = false)
    ∧ (∀ (w : WorldSpec) (csvRead : String → MatrixQ)
        (csvReadVec : String → List ℚ) (vm : MagVarMap) (en : List ForwardModel),
        ForwardModel.magnetics ∉ en →
        validateSensor w (parseSpecMag csvRead vm en).1
          (parseSensorReadingsMag csvReadVec vm en).1 = false) := by
  have hempty : ∀ (w : WorldSpec) (s : MagSpec) (r : MagResults),
      s.locations.rows = 0 → validateSensor w s r = false :=
    fun _ _ _ h => validateSensor_false_of_mem (mem_diag_of_no_locations h)
  refine ⟨hempty, fun w csvRead csvReadVec vm en h => ?_⟩
  have h1 : parseSpecMag csvRead vm en = (defaultMagSpec, []) := by
    unfold parseSpecMag
    rw [if_neg (by simpa using h)]
  rw [h1]
  exact hempty _ _ _ rfl

/-- Witness for C8's amended statement at concrete inputs. -/
theorem C8_empty_spec_invalid_witness :
    validateSensor okWorld defaultMagSpec ⟨0, []⟩ = false
    ∧ validateSensor okWorld
        (parseSpecMag (fun _ => ⟨3, [[2, 2, 2]]⟩) sampleVarMap [ForwardModel.thermal]).1
        (parseSensorReadingsMag (fun _ => [2]) sampleVarMap [ForwardModel.thermal]).1
        = false :=
  ⟨C8_empty_spec_invalid_amended.1 okWorld defaultMagSpec ⟨0, []⟩ rfl,
   C8_empty_spec_invalid_amended.2 okWorld _ _ sampleVarMap _ (by decide)⟩

/-- C9: two validation inputs that agree everywhere except the values of
the z column (column 2) of the locations matrix produce the same boolean:
the z coordinate never influences the outcome of `validateSensor`. -/
theorem C9_z_column_noninterference
    (w : WorldSpec) (vox : VoxelSpec) (ns : NoiseSpec) (bg : ℚ × ℚ × ℚ)
    (loc1 loc2 : MatrixQ) (r : MagResults)
    (hc : loc1.cols = loc2.cols) (hr : loc1.rows = loc2.rows)
    (he : ∀ l c, c ≠ 2 → loc1.entry l c = loc2.entry l c) :
    validateSensor w ⟨loc1, vox, ns, bg⟩ r = validateSensor w ⟨loc2, vox, ns, bg⟩ r := by
  have hout : ∀ l, locationOut w loc1 l = locationOut w loc2 l := by
    intro l
    unfold locationOut
    rw [he l 0 (by decide), he l 1 (by decide)]
  unfold validateSensor validateSensorDiag validateDiagList
  simp only [hc, hr, hout]

/-- Witness for C9: two single-location specs differing only in z
(0 against 99) validate identically. -/
theorem C9_z_column_noninterference_witness :
    validateSensor okWorld ⟨⟨3, [[1, 1, 0]]⟩, ⟨10, 10, 10, 1⟩, ⟨1, 1⟩, (0, 0, 0)⟩ ⟨0, [1]⟩
      = validateSensor okWorld
        ⟨⟨3, [[1, 1, 99]]⟩, ⟨10, 10, 10, 1⟩, ⟨1, 1⟩, (0, 0, 0)⟩ ⟨0, [1]⟩ :=
  C9_z_column_noninterference okWorld _ _ _ _ _ _ rfl rfl (by
    intro l c hc
    match l, c with
    | 0, 0 => rfl
    | 0, 1 => rfl
    | 0, 2 => exact absurd rfl hc
    | 0, (c + 3) => simp [MatrixQ.entry]
    | (l + 1), c => simp [MatrixQ.entry])

/-- C10: `enableProperties<ForwardModel::MAGNETICS>` sets the mask entry at
the LogSusceptibility index to 1, leaves every other entry unchanged, and
in particular never clears an entry previously set to 1. -/
theorem C10_enable_properties_frame (mask : List Int) :
    (logSusceptibilityIndex < mask.length →
      (enableProperties mask)[logSusceptibilityIndex]? = some 1)
    ∧ (∀ j : Nat, j ≠ logSusceptibilityIndex →
      (enableProperties mask)[j]? = mask[j]?)
    ∧ (∀ j : Nat, mask[j]? = some 1 → (enableProperties mask)[j]? = some 1) := by
  refine ⟨fun h => ?_, fun j hj => ?_, fun j hj => ?_⟩
  · unfold enableProperties
    exact List.getElem?_set_eq_of_lt 1 h
  · unfold enableProperties
    exact List.getElem?_set_ne (fun hh => hj hh.symm)
  · by_cases hje : j = logSusceptibilityIndex
    · have hlt : j < mask.length := by
        by_contra hge
        rw [List.getElem?_eq_none (Nat.le_of_not_lt hge)] at hj
        cases hj
      rw [hje] at hlt hj ⊢
      unfold enableProperties
      exact List.getElem?_set_eq_of_lt 1 hlt
    · unfold enableProperties
      rw [List.getElem?_set_ne (fun hh => hje hh.symm)]
      exact hj

/-- Witness for C10 on concrete masks. -/
theorem C10_enable_properties_witness :
    (enableProperties [0, 0, 0])[logSusceptibilityIndex]? = some 1
    ∧ (enableProperties [0, 0, 0])[0]? = ([0, 0, 0] : List Int)[0]?
    ∧ (enableProperties [1, 0, 1])[2]? = some 1 :=
  ⟨(C10_enable_properties_frame [0, 0, 0]).1 (by decide),
   (C10_enable_properties_frame [0, 0, 0]).2.1 0 (by decide),
   (C10_enable_properties_frame [1, 0, 1]).2.2 2 (by decide)⟩

end Obsidian
